import Mathlib

/-!
# Verification of the process execution and streaming core of `mcp_server.py`

A shallow embedding of the Ansible MCP server's core (`src/mcp_server.py`):

* `_build_ansible_env` — the execution-environment builder (lines 42–46);
* `run_ansible_command` — the Bounded Process Runner (lines 49–74);
* `run_playbook.event_stream` — the Streaming Process Relay (lines 205–228);
* `generate_playbook` — the playbook file writer (lines 180–194);
* `list_inventory` — the inventory listing endpoint (lines 79–94).

OS interaction (launching a child process, reading its output, whether a file
exists, what `json.loads` returns) is modelled by explicit behaviour parameters:
a definition takes the observed behaviour of the external world as input and
computes exactly what the Python code would return or yield for that behaviour.
Python dictionaries holding environment variables are modelled as association
lists where the first binding of a key wins.
-/

/-- One character of Python's (ASCII) whitespace class, as stripped by
`str.strip()` / `str.rstrip()` with no arguments: space, tab, newline,
carriage return, vertical tab, form feed.  (Python also strips some
non-ASCII Unicode space characters; none of the claims depend on those.) -/
def isPyWhitespace (c : Char) : Bool :=
  c = ' ' || c = '\t' || c = '\n' || c = '\x0d' || c = '\x0b' || c = '\x0c'

/-- Python `s.rstrip()` on the character list: drop trailing whitespace. -/
def pyRstripL (l : List Char) : List Char :=
  (l.reverse.dropWhile isPyWhitespace).reverse

/-- Python `s.rstrip()`: drop trailing whitespace, as in
`line.decode().rstrip()` at `mcp_server.py:218`. -/
def pyRstrip (s : String) : String :=
  ⟨pyRstripL s.data⟩

/-- Python `s.strip()` on the character list: drop leading and trailing
whitespace. -/
def pyStripL (l : List Char) : List Char :=
  ((l.dropWhile isPyWhitespace).reverse.dropWhile isPyWhitespace).reverse

/-- Python `s.strip()`, as in `input.file_name.strip()` at `mcp_server.py:182`. -/
def pyStrip (s : String) : String :=
  ⟨pyStripL s.data⟩

/-- POSIX `os.path.basename` on the character list: the (possibly empty)
suffix after the last `/`; the whole list when no `/` occurs. -/
def pyBasenameL (l : List Char) : List Char :=
  (l.reverse.takeWhile (fun c => ¬ c = '/')).reverse

/-- POSIX `os.path.basename`, as in `os.path.basename(...)` at
`mcp_server.py:182`. -/
def pyBasename (s : String) : String :=
  ⟨pyBasenameL s.data⟩

/-- POSIX `os.path.join(a, b)` for a single relative-or-absolute second
component: if `b` is absolute it replaces `a`; otherwise a `/` separator is
inserted unless `a` is empty or already ends in `/`. -/
def pyPathJoin (a b : String) : String :=
  if b.data.head? = some '/' then b
  else if a = "" || a.data.getLast? = some '/' then a ++ b
  else a ++ "/" ++ b

/-! ## Execution environment builder (`_build_ansible_env`, lines 42–46)

The Python code copies `os.environ` and applies `setdefault` twice.  The
copy is modelled by the function being pure: the ambient environment is an
input value and is never changed; the result is a new association list. -/

/-- Python `dict.setdefault(k, v)` on an association list: when `k` is
already bound the list is unchanged, otherwise the binding `(k, v)` is
appended (Python dicts append new keys in insertion order). -/
def envSetdefault (env : List (String × String)) (k v : String) :
    List (String × String) :=
  match env.lookup k with
  | some _ => env
  | none => env ++ [(k, v)]

/-- `_build_ansible_env` (`mcp_server.py:42-46`): copy the ambient
environment, then `setdefault` `ANSIBLE_FORCE_COLOR` to `"0"` and
`ANSIBLE_HOST_KEY_CHECKING` to `"False"`. -/
def build_ansible_env (ambient : List (String × String)) :
    List (String × String) :=
  envSetdefault
    (envSetdefault ambient "ANSIBLE_FORCE_COLOR" "0")
    "ANSIBLE_HOST_KEY_CHECKING" "False"

/-! ## Bounded Process Runner (`run_ansible_command`, lines 49–74) -/

/-- Observed behaviour of the child process spawned by `run_ansible_command`:
either `proc.communicate()` finishes within the timeout with the given
captured stdout, stderr and exit status, or the timeout elapses first.  In
the timeout case `discardedOut`/`discardedErr` record whatever output the
child had produced before being killed; the Python code drains it with a
second `proc.communicate()` whose result is ignored. -/
inductive RunnerProcBehaviour where
  | finished (stdout stderr : String) (returncode : Int)
  | timedOut (discardedOut discardedErr : String)
deriving DecidableEq, Repr

/-- The dictionary returned by `run_ansible_command`.  The success branch of
the Python code returns a dict without a `"timeout"` key, which reads as the
flag being false; the timeout branch sets `"timeout": True`. -/
structure ExecResult where
  stdout : String
  stderr : String
  returncode : Option Int
  timeout : Bool
deriving DecidableEq, Repr

/-- `run_ansible_command` (`mcp_server.py:49-74`) as a function of the
timeout bound and the observed child behaviour.  On timeout the child is
killed and reaped (`proc.kill(); await proc.communicate()`) and its drained
output is discarded, never reported. -/
def run_ansible_command (timeout : Nat) (proc : RunnerProcBehaviour) :
    ExecResult :=
  match proc with
  | .finished out err rc =>
      { stdout := out, stderr := err, returncode := some rc, timeout := false }
  | .timedOut _ _ =>
      { stdout := ""
        stderr := "Command timed out after " ++ toString timeout ++ "s"
        returncode := none
        timeout := true }

/-! ## Streaming Process Relay (`run_playbook.event_stream`, lines 205–228) -/

/-- One event of the SSE stream yielded by `event_stream`.  On the wire each
event is framed as `event: <kind>\ndata: <payload>\n\n`; a `data` event
serializes its payload with `json.dumps`.  `end_` models the frame
`event: end\ndata: done\n\n`. -/
inductive StreamEvent where
  | start
  | data (payload : String)
  | error (msg : String)
  | complete
  | end_
deriving DecidableEq, Repr

/-- Is this the `start` event? -/
def StreamEvent.isStart : StreamEvent → Bool
  | .start => true
  | _ => false

/-- Is this the `end` event? -/
def StreamEvent.isEnd : StreamEvent → Bool
  | .end_ => true
  | _ => false

/-- Is this a `data` event? -/
def StreamEvent.isData : StreamEvent → Bool
  | .data _ => true
  | _ => false

/-- Is this the `complete` event? -/
def StreamEvent.isComplete : StreamEvent → Bool
  | .complete => true
  | _ => false

/-- Is this an `error` event? -/
def StreamEvent.isError : StreamEvent → Bool
  | .error _ => true
  | _ => false

/-- Is this a terminal outcome event, i.e. `complete` or `error`? -/
def StreamEvent.isTerminal : StreamEvent → Bool
  | .complete => true
  | .error _ => true
  | _ => false

/-- The payload of a `data` event, `none` for every other event. -/
def StreamEvent.dataPayload : StreamEvent → Option String
  | .data s => some s
  | _ => none

/-- Observed behaviour of the `try` block of `event_stream`
(`mcp_server.py:207-225`): the raw decoded lines read from the child's
merged stdout/stderr before the block either faults or completes, and then
either an exception with message `str(e)` (covering launch failure, a read
fault, or any other fault inside the block — a pure launch failure has
`lines = []`) or a clean exit with the child's return code. -/
structure RelayProcBehaviour where
  lines : List String
  outcome : Except String Int
deriving Repr

/-- The `data` events produced by the read loop (`mcp_server.py:217-220`):
each raw line is `rstrip`ped; non-empty results are yielded in order,
empty (blank-line) results are suppressed by the `if cleaned:` test. -/
def dataEvents (lines : List String) : List StreamEvent :=
  ((lines.map pyRstrip).filter (fun s => s ≠ "")).map StreamEvent.data

/-- `event_stream` (`mcp_server.py:205-228`): yield `start`; inside the
`try`, yield a `data` event per non-blank line; on clean child exit yield
`complete` when the return code is zero and otherwise `error` with
`"Return code {rc}"`; a fault anywhere in the block is caught by the
`except` and yields `error` with the fault's description; finally,
unconditionally yield `end`. -/
def event_stream (b : RelayProcBehaviour) : List StreamEvent :=
  StreamEvent.start ::
    (match b.outcome with
      | .ok rc =>
          dataEvents b.lines ++
            [if rc = 0 then StreamEvent.complete
             else StreamEvent.error ("Return code " ++ toString rc)]
      | .error msg => dataEvents b.lines ++ [StreamEvent.error msg])
    ++ [StreamEvent.end_]

/-! ## Playbook file writer (`generate_playbook`, lines 180–194) -/

/-- Result of `generate_playbook`: either the error object
`{"error": "file_name must be provided"}` returned before any directory or
file is created or touched, or `{"status": "written", "path": path}` after
writing the request body to `path`. -/
inductive GenerateOutcome where
  | nameError
  | written (path : String)
deriving DecidableEq, Repr

/-- `generate_playbook` (`mcp_server.py:180-194`) as a function of the
playbooks directory and the requested file name: the name is stripped and
reduced to its basename; an empty result returns the error object without
creating or modifying anything, otherwise the request data is written to the
basename joined to the playbooks directory. -/
def generate_playbook (playbooksDir file_name : String) : GenerateOutcome :=
  let sanitized := pyBasename (pyStrip file_name)
  if sanitized = "" then .nameError
  else .written (pyPathJoin playbooksDir sanitized)

/-! ## Inventory listing (`list_inventory`, lines 79–94) -/

/-- Observed behaviour of the external world for one `list_inventory`
call: whether `os.path.exists` reports the inventory present; the outcome
of `asyncio.create_subprocess_exec` (`Except.error exc` means the launch
raised with description `exc`, e.g. `FileNotFoundError` when the
`ansible-inventory` executable is not installed); the child's exit status
after `proc.communicate()`; and the outcomes of `stdout.decode()` and
`stderr.decode()` (`Except.error exc` means `UnicodeDecodeError` on
non-UTF-8 bytes).  Lines 85–88 of `mcp_server.py` wrap none of these in
any `try`, and the `try` at lines 91–94 catches only
`json.JSONDecodeError`, so every one of these `Except.error` outcomes
propagates out of the endpoint as an unhandled exception. -/
structure InventoryWorld where
  inventoryExists : Bool
  launch : Except String Unit
  returncode : Int
  stdoutDecoded : Except String String
  stderrDecoded : Except String String
deriving Repr

/-- The structured value returned by `list_inventory`: the file-missing
error object, the `{"stderr": ..., "returncode": ...}` object on non-zero
exit, the parsed JSON document on success, or the `{"output": ...}` object
when stdout is not valid JSON. -/
inductive ListInventoryReturn (α : Type) where
  | notFound (msg : String)
  | failed (stderr : String) (returncode : Int)
  | parsed (value : α)
  | rawOutput (text : String)
deriving DecidableEq, Repr

/-- `list_inventory` (`mcp_server.py:79-94`) as a function of the
inventory name, the observed world behaviour and the behaviour of
`json.loads` (modelled as a function returning `none` exactly when it
would raise `JSONDecodeError`, the only exception the endpoint catches).
`Except.ok` is a structured value handed to the caller, with the boolean
recording whether a child process was spawned; `Except.error exc` is an
exception with description `exc` escaping the endpoint unhandled, which
happens when the launch raises or when the decode used on the taken branch
raises.  The branches follow the source's order: existence check, launch,
exit-status test decoding only stderr, then JSON parse of the decoded
stdout. -/
def list_inventory {α : Type} (jsonLoads : String → Option α)
    (inventory : String) (w : InventoryWorld) :
    Except String (ListInventoryReturn α × Bool) :=
  if w.inventoryExists = false then
    .ok (.notFound ("Inventory file not found: " ++ inventory), false)
  else
    match w.launch with
    | .error exc => .error exc
    | .ok _ =>
      if w.returncode ≠ 0 then
        match w.stderrDecoded with
        | .error exc => .error exc
        | .ok err => .ok (.failed err w.returncode, true)
      else
        match w.stdoutDecoded with
        | .error exc => .error exc
        | .ok out =>
          match jsonLoads out with
          | some v => .ok (.parsed v, true)
          | none => .ok (.rawOutput out, true)

/-! ## Helper lemmas -/

/-- Every element of `dataEvents lines` is a `data` event. -/
theorem mem_dataEvents {e : StreamEvent} {lines : List String}
    (h : e ∈ dataEvents lines) : ∃ s, e = StreamEvent.data s := by
  unfold dataEvents at h
  obtain ⟨s, _, rfl⟩ := List.mem_map.mp h
  exact ⟨s, rfl⟩

/-- A predicate false on all `data` events filters `dataEvents` to nothing. -/
theorem filter_dataEvents_eq_nil (p : StreamEvent → Bool)
    (hp : ∀ s, p (StreamEvent.data s) = false) (lines : List String) :
    (dataEvents lines).filter p = [] := by
  rw [List.filter_eq_nil_iff]
  intro a ha
  obtain ⟨s, rfl⟩ := mem_dataEvents ha
  simp [hp s]

theorem getLast?_cons_append_singleton (a e : StreamEvent)
    (l : List StreamEvent) : (a :: (l ++ [e])).getLast? = some e := by
  rw [← List.cons_append, List.getLast?_concat]

/-- Extracting the `data` payloads of `dataEvents` recovers the filtered
trimmed lines. -/
theorem filterMap_dataPayload_dataEvents (lines : List String) :
    (dataEvents lines).filterMap StreamEvent.dataPayload
      = (lines.map pyRstrip).filter (fun s => s ≠ "") := by
  unfold dataEvents
  rw [List.filterMap_map]
  have : (StreamEvent.dataPayload ∘ StreamEvent.data) = some := rfl
  rw [this, List.filterMap_some]

/-- `dataEvents` is unchanged by filtering for `data` events. -/
theorem filter_isData_dataEvents (lines : List String) :
    (dataEvents lines).filter StreamEvent.isData = dataEvents lines := by
  rw [List.filter_eq_self]
  intro a ha
  obtain ⟨s, rfl⟩ := mem_dataEvents ha
  rfl

/-! ## Claim theorems -/

/-- Claim C1: every event sequence emitted by the Streaming Process Relay
starts with exactly one `start` event, ends with exactly one `end` event as
the very last event regardless of which path (success, non-zero exit, or
fault) was taken, and contains at most one terminal `complete`-or-`error`
event in between. -/
theorem relay_stream_shape (b : RelayProcBehaviour) :
    (event_stream b).head? = some StreamEvent.start ∧
    (event_stream b).getLast? = some StreamEvent.end_ ∧
    ((event_stream b).filter StreamEvent.isStart).length = 1 ∧
    ((event_stream b).filter StreamEvent.isEnd).length = 1 ∧
    ((event_stream b).filter StreamEvent.isTerminal).length ≤ 1 := by
  obtain ⟨ls, outcome⟩ := b
  have hstart := filter_dataEvents_eq_nil StreamEvent.isStart (fun _ => rfl) ls
  have hend := filter_dataEvents_eq_nil StreamEvent.isEnd (fun _ => rfl) ls
  have hterm := filter_dataEvents_eq_nil StreamEvent.isTerminal (fun _ => rfl) ls
  cases outcome with
  | ok rc =>
    by_cases h0 : rc = 0 <;>
      refine ⟨rfl, getLast?_cons_append_singleton _ _ _, ?_, ?_, ?_⟩ <;>
        simp [event_stream, h0, List.filter_append, hstart, hend, hterm,
          StreamEvent.isStart, StreamEvent.isEnd, StreamEvent.isTerminal]
  | error msg =>
    refine ⟨rfl, getLast?_cons_append_singleton _ _ _, ?_, ?_, ?_⟩ <;>
      simp [event_stream, List.filter_append, hstart, hend, hterm,
        StreamEvent.isStart, StreamEvent.isEnd, StreamEvent.isTerminal]

/-- Claim C5: for every child output, the Relay emits one `data` event per
non-empty line, carrying exactly the trimmed text of that line, in the same
relative order as the lines were produced, and no `data` event for blank
(whitespace-only) lines: the payload sequence of the stream's `data` events
is the order-preserving filter of the trimmed lines to the non-empty ones,
and the number of `data` events equals the number of non-blank lines. -/
theorem relay_data_events (b : RelayProcBehaviour) :
    (event_stream b).filterMap StreamEvent.dataPayload
      = (b.lines.map pyRstrip).filter (fun s => s ≠ "") ∧
    ((event_stream b).filter StreamEvent.isData).length
      = (b.lines.filter (fun l => pyRstrip l ≠ "")).length := by
  obtain ⟨ls, outcome⟩ := b
  have hpay := filterMap_dataPayload_dataEvents ls
  have hdat := filter_isData_dataEvents ls
  have hlen : (dataEvents ls).length
      = (ls.filter (fun l => pyRstrip l ≠ "")).length := by
    unfold dataEvents
    rw [List.length_map, List.filter_map, List.length_map]
    rfl
  cases outcome with
  | ok rc =>
    by_cases h0 : rc = 0 <;>
      constructor <;>
        simp [event_stream, h0, List.filterMap_append, List.filter_append,
          hpay, hdat, hlen, StreamEvent.dataPayload, StreamEvent.isData]
  | error msg =>
    constructor <;>
      simp [event_stream, List.filterMap_append, List.filter_append,
        hpay, hdat, hlen, StreamEvent.dataPayload, StreamEvent.isData]

/-- Claim C6: whenever the child exits without a fault, the Relay emits
exactly one terminal event after the exit — `complete` if the exit code is
zero, otherwise `error` carrying the numeric exit code — never both and
never neither: the terminal events of the stream form exactly that
singleton. -/
theorem relay_terminal_on_clean_exit (ls : List String) (rc : Int) :
    (event_stream ⟨ls, Except.ok rc⟩).filter StreamEvent.isTerminal
      = [if rc = 0 then StreamEvent.complete
         else StreamEvent.error ("Return code " ++ toString rc)] := by
  have hterm := filter_dataEvents_eq_nil StreamEvent.isTerminal (fun _ => rfl) ls
  by_cases h0 : rc = 0 <;>
    simp [event_stream, h0, List.filter_append, hterm,
      StreamEvent.isTerminal]

/-- Claim C7: when the `try` block raises a fault (for example a
nonexistent executable), the fault is caught and converted into an `error`
event carrying the fault's description, followed by the unconditional `end`
event: the stream contains no `complete` event, exactly one `error` event
carrying the description, ends with `end`, the `error` event is the
second-to-last event (so no `data` event follows the fault), and a fault at
launch (no lines read) yields precisely `[start, error, end]`.  The fault is
consumed by the model rather than propagated: `event_stream` is a total
function into event lists. -/
theorem relay_fault_handling (ls : List String) (msg : String) :
    (event_stream ⟨ls, Except.error msg⟩).filter StreamEvent.isComplete
      = [] ∧
    (event_stream ⟨ls, Except.error msg⟩).filter StreamEvent.isError
      = [StreamEvent.error msg] ∧
    (event_stream ⟨ls, Except.error msg⟩).getLast?
      = some StreamEvent.end_ ∧
    (event_stream ⟨ls, Except.error msg⟩).dropLast.getLast?
      = some (StreamEvent.error msg) ∧
    event_stream ⟨[], Except.error msg⟩
      = [StreamEvent.start, StreamEvent.error msg, StreamEvent.end_] := by
  have hcomp := filter_dataEvents_eq_nil StreamEvent.isComplete (fun _ => rfl) ls
  have herr := filter_dataEvents_eq_nil StreamEvent.isError (fun _ => rfl) ls
  refine ⟨?_, ?_, getLast?_cons_append_singleton _ _ _, ?_, ?_⟩
  · simp [event_stream, List.filter_append, hcomp, StreamEvent.isComplete]
  · simp [event_stream, List.filter_append, herr, StreamEvent.isError]
  · have hshape : event_stream ⟨ls, Except.error msg⟩
        = (StreamEvent.start :: (dataEvents ls ++ [StreamEvent.error msg]))
            ++ [StreamEvent.end_] := by
      simp [event_stream]
    rw [hshape, List.dropLast_concat, ← List.cons_append,
      List.getLast?_concat]
  · simp [event_stream, dataEvents]

/-- Claim C2: whenever the timeout elapses before the child finishes, the
Bounded Process Runner kills and reaps the child and returns a result with
empty `stdout`, `stderr` equal to `"Command timed out after {timeout}s"`,
absent exit code and the timed-out flag set; whatever output the child had
produced before the kill (the `discardedOut`/`discardedErr` arguments) is
discarded, never partially reported.  The concrete 1-second instance yields
the literal message `"Command timed out after 1s"`. -/
theorem runner_timeout_result (timeout : Nat)
    (discardedOut discardedErr : String) :
    run_ansible_command timeout
        (RunnerProcBehaviour.timedOut discardedOut discardedErr)
      = { stdout := ""
          stderr := "Command timed out after " ++ toString timeout ++ "s"
          returncode := none
          timeout := true } ∧
    run_ansible_command 1 (RunnerProcBehaviour.timedOut "partial out" "")
      = { stdout := "", stderr := "Command timed out after 1s",
          returncode := none, timeout := true } := by
  exact ⟨rfl, by decide⟩

/-- Claim C3: whenever the child terminates within the timeout bound, the
Bounded Process Runner returns the child's captured stdout and stderr, an
exit code equal to the child's true exit status, and a false timed-out
flag; in particular the `["echo", "hello"]` scenario (child produces
`"hello\n"`, empty stderr, exit status 0, 5-second bound) yields exactly
`{stdout := "hello\n", stderr := "", returncode := some 0,
timeout := false}`. -/
theorem runner_success_result (out err : String) (rc : Int) (timeout : Nat) :
    run_ansible_command timeout (RunnerProcBehaviour.finished out err rc)
      = { stdout := out, stderr := err, returncode := some rc,
          timeout := false } ∧
    run_ansible_command 5 (RunnerProcBehaviour.finished "hello\n" "" 0)
      = { stdout := "hello\n", stderr := "", returncode := some 0,
          timeout := false } := by
  exact ⟨rfl, rfl⟩

/-- `setdefault` makes its key bound: to the old value when present,
otherwise to the supplied default. -/
theorem lookup_envSetdefault_self (env : List (String × String))
    (k v : String) :
    (envSetdefault env k v).lookup k = some ((env.lookup k).getD v) := by
  unfold envSetdefault
  cases h : env.lookup k with
  | some w => simp [h]
  | none => simp [h, List.lookup_append, List.lookup]

/-- `setdefault` leaves the binding of every other key unchanged. -/
theorem lookup_envSetdefault_ne (env : List (String × String))
    (k v k' : String) (h : k' ≠ k) :
    (envSetdefault env k v).lookup k' = env.lookup k' := by
  unfold envSetdefault
  cases hl : env.lookup k with
  | some w => rfl
  | none =>
    have hb : (k' == k) = false := beq_eq_false_iff_ne.mpr h
    simp [List.lookup_append, List.lookup, hb]

/-- Claim C4: for every ambient environment, `_build_ansible_env` is a pure
function returning an independent association list (the ambient input value
is never changed) in which `ANSIBLE_FORCE_COLOR` and
`ANSIBLE_HOST_KEY_CHECKING` are bound to their ambient values when those
keys are present and to the defaults `"0"` / `"False"` only when absent,
while every other key's binding is exactly as in the ambient environment. -/
theorem build_ansible_env_spec (ambient : List (String × String)) :
    (build_ansible_env ambient).lookup "ANSIBLE_FORCE_COLOR"
      = some ((ambient.lookup "ANSIBLE_FORCE_COLOR").getD "0") ∧
    (build_ansible_env ambient).lookup "ANSIBLE_HOST_KEY_CHECKING"
      = some ((ambient.lookup "ANSIBLE_HOST_KEY_CHECKING").getD "False") ∧
    ∀ k, k ≠ "ANSIBLE_FORCE_COLOR" → k ≠ "ANSIBLE_HOST_KEY_CHECKING" →
      (build_ansible_env ambient).lookup k = ambient.lookup k := by
  refine ⟨?_, ?_, ?_⟩
  · rw [build_ansible_env,
      lookup_envSetdefault_ne _ _ _ _ (by decide),
      lookup_envSetdefault_self]
  · rw [build_ansible_env, lookup_envSetdefault_self,
      lookup_envSetdefault_ne _ _ _ _ (by decide)]
  · intro k h1 h2
    rw [build_ansible_env, lookup_envSetdefault_ne _ _ _ _ h2,
      lookup_envSetdefault_ne _ _ _ _ h1]

/-- Witness for C4: on the concrete ambient environment
`[("PATH", "/usr/bin")]`, the unrelated key `PATH` keeps its ambient
binding and the two absent Ansible keys receive their defaults. -/
theorem build_ansible_env_spec_witness :
    (build_ansible_env [("PATH", "/usr/bin")]).lookup "PATH"
      = some "/usr/bin" := by
  have h := (build_ansible_env_spec [("PATH", "/usr/bin")]).2.2 "PATH"
    (by decide) (by decide)
  rw [h]
  decide

/-- The basename of a path never contains a path separator. -/
theorem slash_not_mem_pyBasenameL (l : List Char) : '/' ∉ pyBasenameL l := by
  unfold pyBasenameL
  intro h
  rw [List.mem_reverse] at h
  have hp := List.mem_takeWhile_imp h
  simp at hp

/-- String version of `slash_not_mem_pyBasenameL`. -/
theorem slash_not_mem_pyBasename (s : String) :
    '/' ∉ (pyBasename s).data :=
  slash_not_mem_pyBasenameL s.data

/-- A list not containing a character does not start with it. -/
theorem head?_ne_of_not_mem {l : List Char} (h : '/' ∉ l) :
    l.head? ≠ some '/' := by
  cases l with
  | nil => simp
  | cons a t =>
    simp only [List.head?_cons]
    intro hc
    have ha : a = '/' := Option.some.inj hc
    subst ha
    exact h (List.mem_cons_self _ _)

/-- `os.path.join` of a non-empty directory that does not end in `/` with a
relative name inserts exactly one separator. -/
theorem pyPathJoin_relative (a b : String) (ha : a ≠ "")
    (ha2 : a.data.getLast? ≠ some '/') (hb : b.data.head? ≠ some '/') :
    pyPathJoin a b = a ++ "/" ++ b := by
  unfold pyPathJoin
  rw [if_neg hb, if_neg]
  simp [ha, ha2]

/-- Claim C9: for a playbooks directory that is non-empty and does not end
in a separator (as `PLAYBOOKS_DIR = os.path.join(BASE_DIR, "playbooks")`
always is), `generate_playbook` either rejects the request — exactly when
the stripped file name's basename is empty — returning the error object and
touching no file, or writes to a path obtained by joining the playbooks
directory with a non-empty name containing no path separator, so the target
is a direct entry of the playbooks directory; names containing separators or
parent-directory segments are cut down to their final component before the
join. -/
theorem generate_playbook_confined (dir fn : String) (hdir : dir ≠ "")
    (hsl : dir.data.getLast? ≠ some '/') :
    (generate_playbook dir fn = GenerateOutcome.nameError ∧
       pyBasename (pyStrip fn) = "") ∨
    (∃ n, n = pyBasename (pyStrip fn) ∧ n ≠ "" ∧ '/' ∉ n.data ∧
       generate_playbook dir fn
         = GenerateOutcome.written (dir ++ "/" ++ n)) := by
  by_cases h : pyBasename (pyStrip fn) = ""
  · exact Or.inl ⟨by simp [generate_playbook, h], h⟩
  · refine Or.inr ⟨pyBasename (pyStrip fn), rfl, h,
      slash_not_mem_pyBasename _, ?_⟩
    have hj := pyPathJoin_relative dir (pyBasename (pyStrip fn)) hdir hsl
      (head?_ne_of_not_mem (slash_not_mem_pyBasename _))
    simp only [generate_playbook, if_neg h, hj]

/-- Witness for C9: the traversal attempt `" ../../etc/passwd "` is reduced
to the bare name `passwd` and written inside `/app/playbooks`. -/
theorem generate_playbook_confined_witness :
    (generate_playbook "/app/playbooks" " ../../etc/passwd "
         = GenerateOutcome.nameError ∧
       pyBasename (pyStrip " ../../etc/passwd ") = "") ∨
    (∃ n, n = pyBasename (pyStrip " ../../etc/passwd ") ∧ n ≠ "" ∧
       '/' ∉ n.data ∧
       generate_playbook "/app/playbooks" " ../../etc/passwd "
         = GenerateOutcome.written ("/app/playbooks" ++ "/" ++ n)) :=
  generate_playbook_confined "/app/playbooks" " ../../etc/passwd "
    (by decide) (by decide)

/-- Claim C10, counterexample: the claim asserts that for every input the
endpoint never raises and always returns a structured result, but when the
inventory file exists and `asyncio.create_subprocess_exec` raises — which
lines 85–88 of `mcp_server.py` leave outside any `try`, e.g.
`FileNotFoundError` when the `ansible-inventory` executable is not
installed — the exception propagates to the caller instead of any
structured value. -/
theorem list_inventory_never_raises_refuted :
    list_inventory (fun _ => (none : Option Nat)) "inventory.ini"
        { inventoryExists := true
          launch := Except.error "FileNotFoundError: ansible-inventory"
          returncode := 0
          stdoutDecoded := Except.ok ""
          stderrDecoded := Except.ok "" }
      = Except.error "FileNotFoundError: ansible-inventory" := rfl

/-- Claim C10, amended: for every input to `list_inventory`, on the handled
paths the endpoint returns a structured result — if the inventory file does
not exist it returns an error object without spawning any process; if the
launch succeeds, the command exits non-zero and its stderr decodes, it
returns only the captured stderr and return code without consulting stdout
or the JSON parser; if the command succeeds, its stdout decodes but is not
valid JSON, the raw text is returned under an output key instead of
propagating the parse failure (the only exception the endpoint catches),
and a parsable stdout is returned as the parsed document — but a failure to
launch the child process or to decode the output used on the taken branch
is not caught and raises to the caller. -/
theorem list_inventory_amended {α : Type} (jsonLoads : String → Option α)
    (inventory : String) (w : InventoryWorld) :
    (w.inventoryExists = false →
      list_inventory jsonLoads inventory w
        = Except.ok (ListInventoryReturn.notFound
            ("Inventory file not found: " ++ inventory), false)) ∧
    (∀ exc, w.inventoryExists = true → w.launch = Except.error exc →
      list_inventory jsonLoads inventory w = Except.error exc) ∧
    (∀ err, w.inventoryExists = true → w.launch = Except.ok () →
      w.returncode ≠ 0 → w.stderrDecoded = Except.ok err →
      list_inventory jsonLoads inventory w
        = Except.ok (ListInventoryReturn.failed err w.returncode, true)) ∧
    (∀ exc, w.inventoryExists = true → w.launch = Except.ok () →
      w.returncode ≠ 0 → w.stderrDecoded = Except.error exc →
      list_inventory jsonLoads inventory w = Except.error exc) ∧
    (∀ out, w.inventoryExists = true → w.launch = Except.ok () →
      w.returncode = 0 → w.stdoutDecoded = Except.ok out →
      jsonLoads out = none →
      list_inventory jsonLoads inventory w
        = Except.ok (ListInventoryReturn.rawOutput out, true)) ∧
    (∀ out v, w.inventoryExists = true → w.launch = Except.ok () →
      w.returncode = 0 → w.stdoutDecoded = Except.ok out →
      jsonLoads out = some v →
      list_inventory jsonLoads inventory w
        = Except.ok (ListInventoryReturn.parsed v, true)) ∧
    (∀ exc, w.inventoryExists = true → w.launch = Except.ok () →
      w.returncode = 0 → w.stdoutDecoded = Except.error exc →
      list_inventory jsonLoads inventory w = Except.error exc) := by
  refine ⟨?_, ?_, ?_, ?_, ?_, ?_, ?_⟩
  · intro h
    simp [list_inventory, h]
  · intro exc h hl
    simp [list_inventory, h, hl]
  · intro err h hl hr hd
    simp [list_inventory, h, hl, hr, hd]
  · intro exc h hl hr hd
    simp [list_inventory, h, hl, hr, hd]
  · intro out h hl hr hd hp
    simp [list_inventory, h, hl, hr, hd, hp]
  · intro out v h hl hr hd hp
    simp [list_inventory, h, hl, hr, hd, hp]
  · intro exc h hl hr hd
    simp [list_inventory, h, hl, hr, hd]

/-- Witness for the amended C10: a launched run that exits zero with
decodable, non-JSON stdout returns the raw text under the output key. -/
theorem list_inventory_amended_witness :
    list_inventory (fun _ => (none : Option Nat)) "inventory.ini"
        { inventoryExists := true
          launch := Except.ok ()
          returncode := 0
          stdoutDecoded := Except.ok "not json"
          stderrDecoded := Except.ok "" }
      = Except.ok (ListInventoryReturn.rawOutput "not json", true) :=
  (list_inventory_amended (fun _ => (none : Option Nat)) "inventory.ini"
      { inventoryExists := true
        launch := Except.ok ()
        returncode := 0
        stdoutDecoded := Except.ok "not json"
        stderrDecoded := Except.ok "" }).2.2.2.2.1 "not json" rfl rfl rfl rfl rfl
